import Mathlib

/-!
Shallow embedding of the RohdeSchwarzFPC driver
(src/rohdeschwarzfpc/main.py and src/rohdeschwarzfpc/rohdeschwarzfpc.py).

The driver talks to a VISA transport.  We model the transport as a pair of
response functions (`query` for text queries, `queryBin` for binary trace
queries), the Python builtin `float()` as an abstract parser
`pf : String → Option ℝ` (`none` models a raised `ValueError`), string
operations (`split`, `strip`, `lower`) concretely, amplitude samples as real
numbers with `10 ^ (y / 10)` as the real power, and Python exceptions as
`Except PyErr`.  The on-disk JSON config document is a flat string-to-string
mapping, modelled as an association list; the file system state is
`Option ConfigDoc` (`none` = file absent).
-/

namespace RSFPC

/-- Python exception kinds relevant to this driver. -/
inductive PyErr
  | valueError (msg : String)
  | fileNotFound
  | transportErr (msg : String)
deriving DecidableEq

/-- Whitespace characters stripped by Python `str.strip()` (ASCII range). -/
def isPySpace (c : Char) : Bool :=
  c = ' ' || c = '\t' || c = '\n' || c = '\r' || c = '\x0b' || c = '\x0c'

/-- Python `s.strip()`: drop leading and trailing whitespace. -/
def pyStrip (s : String) : String :=
  String.mk (((s.data.dropWhile isPySpace).reverse.dropWhile isPySpace).reverse)

/-- Splitting a character list at every semicolon, keeping empty fields:
the empty input gives one empty field, matching Python `split` with an
explicit separator. -/
def splitSemiAux : List Char → List (List Char)
  | [] => [[]]
  | c :: rest =>
    match splitSemiAux rest with
    | [] => [[c]]
    | g :: gs => if c = ';' then [] :: g :: gs else (c :: g) :: gs

/-- Python `s.split` with a semicolon separator: split at every semicolon,
keeping empty fields. -/
def pySplitSemicolon (s : String) : List String :=
  (splitSemiAux s.data).map String.mk

/-- Python `s.lower()` (ASCII case folding suffices for the strings compared here). -/
def pyLower (s : String) : String :=
  String.mk (s.data.map Char.toLower)

/-- `np.linspace(a, b, n)`: `n` evenly spaced samples from `a` to `b` inclusive.
For `n = 1` numpy returns `[a]`; here the term `(b - a) * 0 / (1 - 1)` is `0`
by the division-by-zero convention, so no special case is needed. -/
noncomputable def linspace (a b : ℝ) (n : ℕ) : List ℝ :=
  (List.range n).map (fun i : ℕ => a + (b - a) * (i : ℝ) / ((n : ℝ) - 1))

/-- The VISA transport, reduced to its response behaviour: `query` answers a
text command with a string, `queryBin` answers a binary-format trace command
with a vector of floats. -/
structure Transport where
  query : String → String
  queryBin : String → List ℝ

/-- The combined scalar query issued during trace acquisition
(identical in both source files). -/
def scalarQuery : String :=
  ":FREQuency:STARt?;:FREQuency:STOP?;:UNIT:POWer?;:BWIDth:RESolution?"

namespace main

/-- The binary trace request string of `main.py`: the template
`FORMat REAL,32;:TRACe:DATA%s? TRACE%i` formatted with `kind` and `n`,
where `kind` is `:MEMory` when `mem` is set and empty otherwise. -/
def traceReq (n : ℤ) (mem : Bool) : String :=
  "FORMat REAL,32;:TRACe:DATA" ++ (if mem then ":MEMory" else "") ++
    "? TRACE" ++ toString n

/-- The dictionary returned by `main.FPC.get_trace`: keys `x`, `y`,
`xlabel`, `ylabel`. -/
structure TraceDict where
  x : List ℝ
  y : List ℝ
  xlabel : String
  ylabel : String

/-- `main.FPC.get_trace(n, mem)`.  Queries the amplitude vector, then the
combined scalar query; unpacks the response into exactly four fields
(`ValueError` otherwise); builds the frequency axis with `linspace`; if the
reported unit lowercases to `dbm`, converts each sample with
`50*0.001*(10**(y/10))/float(rbw)` and extends the y label, otherwise leaves
the data and the label as they are. -/
noncomputable def get_trace (pf : String → Option ℝ) (tr : Transport)
    (n : ℤ) (mem : Bool) : Except PyErr TraceDict :=
  let y := tr.queryBin (traceReq n mem)
  let resp := tr.query scalarQuery
  match pySplitSemicolon resp with
  | [f1, f2, unit, rbw] =>
    match pf f1, pf f2 with
    | some a, some b =>
      let x := linspace a b y.length
      if pyLower unit = "dbm" then
        match pf rbw with
        | some r =>
          Except.ok ⟨x, y.map (fun v => 50 * 0.001 * (10 ^ (v / 10)) / r),
            "Frequency (Hz)", "$S_V$ (V$^2$/Hz)"⟩
        | none => Except.error (PyErr.valueError "could not convert string to float")
      else
        Except.ok ⟨x, y, "Frequency (Hz)", "$S_V$"⟩
    | _, _ => Except.error (PyErr.valueError "could not convert string to float")
  | _ => Except.error (PyErr.valueError "unpack mismatch")

end main

namespace rohdeschwarzfpc

/-- The binary trace request string of `rohdeschwarzfpc.py`: the template
`FORMat REAL,32;:TRACe:DATA? TRACE%i` formatted with `n` (no memory variant). -/
def traceReq (n : ℤ) : String :=
  "FORMat REAL,32;:TRACe:DATA? TRACE" ++ toString n

/-- The tuple `(x, y, mdt)` returned by `rohdeschwarzfpc.FPC.get_trace`,
with the metadata dictionary flattened into named fields. -/
structure TraceTuple where
  x : List ℝ
  y : List ℝ
  name_x : String
  unit_x : String
  name_y : String
  unit_y : String

/-- `rohdeschwarzfpc.FPC.get_trace(n)`.  Same acquisition logic as the dict
variant but without the memory flag; on the dBm branch records
the fixed unit string `V$^2$/Hz` as `unit_y`, otherwise records the reported
unit string verbatim. -/
noncomputable def get_trace (pf : String → Option ℝ) (tr : Transport)
    (n : ℤ) : Except PyErr TraceTuple :=
  let y := tr.queryBin (traceReq n)
  let resp := tr.query scalarQuery
  match pySplitSemicolon resp with
  | [f1, f2, unit, rbw] =>
    match pf f1, pf f2 with
    | some a, some b =>
      let x := linspace a b y.length
      if pyLower unit = "dbm" then
        match pf rbw with
        | some r =>
          Except.ok ⟨x, y.map (fun v => 50 * 0.001 * (10 ^ (v / 10)) / r),
            "Frequency", "Hz", "$S_V$", "V$^2$/Hz"⟩
        | none => Except.error (PyErr.valueError "could not convert string to float")
      else
        Except.ok ⟨x, y, "Frequency", "Hz", "$S_V$", unit⟩
    | _, _ => Except.error (PyErr.valueError "could not convert string to float")
  | _ => Except.error (PyErr.valueError "unpack mismatch")

end rohdeschwarzfpc

/-- Result type of the scalar parameter getters: the parsed number, or the
raw (stripped) response string when `float()` fails.  Both source files
define the six getters with identical bodies; we embed them once. -/
inductive GetResult
  | num (v : ℝ)
  | raw (s : String)

/-- `FPC.get_start_freq`: query, then `try: float(x) except ValueError: x.strip()`. -/
def get_start_freq (pf : String → Option ℝ) (q : String → String) : GetResult :=
  let x := q "FREQuency:STARt?"
  match pf x with
  | some v => GetResult.num v
  | none => GetResult.raw (pyStrip x)

/-- `FPC.get_stop_freq`. -/
def get_stop_freq (pf : String → Option ℝ) (q : String → String) : GetResult :=
  let x := q "FREQuency:STOP?"
  match pf x with
  | some v => GetResult.num v
  | none => GetResult.raw (pyStrip x)

/-- `FPC.get_cent_freq`. -/
def get_cent_freq (pf : String → Option ℝ) (q : String → String) : GetResult :=
  let x := q "FREQuency:CENTer?"
  match pf x with
  | some v => GetResult.num v
  | none => GetResult.raw (pyStrip x)

/-- `FPC.get_span`. -/
def get_span (pf : String → Option ℝ) (q : String → String) : GetResult :=
  let x := q "FREQuency:SPAN?"
  match pf x with
  | some v => GetResult.num v
  | none => GetResult.raw (pyStrip x)

/-- `FPC.get_rbw`. -/
def get_rbw (pf : String → Option ℝ) (q : String → String) : GetResult :=
  let x := q "BWIDth:RESolution?"
  match pf x with
  | some v => GetResult.num v
  | none => GetResult.raw (pyStrip x)

/-- `FPC.get_vbw`. -/
def get_vbw (pf : String → Option ℝ) (q : String → String) : GetResult :=
  let x := q "BANDwidth:VIDeo?"
  match pf x with
  | some v => GetResult.num v
  | none => GetResult.raw (pyStrip x)

/-! ### Config persistence (`main.py` free functions) -/

/-- The parsed JSON config document: a flat key-value mapping. -/
abbrev ConfigDoc := List (String × String)

/-- First-match lookup in an association list; for Python dicts (whose keys
are unique) this is exactly `c[k]` / `k in c`. -/
def lookupA : ConfigDoc → String → Option String
  | [], _ => none
  | kv :: rest, k => if kv.1 = k then some kv.2 else lookupA rest k

/-- Opening and JSON-parsing the config file: raises `FileNotFoundError` when
the file is absent, otherwise yields the parsed document. -/
def readConfigFile : Option ConfigDoc → Except PyErr ConfigDoc
  | none => Except.error PyErr.fileNotFound
  | some d => Except.ok d

/-- `main.get_config()`: read the config file, returning `{}` when the open
raises `FileNotFoundError`. -/
def get_config (fs : Option ConfigDoc) : ConfigDoc :=
  match readConfigFile fs with
  | Except.ok c => c
  | Except.error _ => []

/-- Python `c.update(newc)` on dicts: keys already in `c` keep their position
and take the value from `newc`; keys only in `newc` are appended. -/
def dictUpdate (c newc : ConfigDoc) : ConfigDoc :=
  (c.map (fun kv =>
    match lookupA newc kv.1 with
    | some v => (kv.1, v)
    | none => kv))
  ++ newc.filter (fun kv => (lookupA c kv.1).isNone)

/-- `main.set_config(newc)`: merge `newc` into the current document and
rewrite the file with the result. -/
def set_config (fs : Option ConfigDoc) (newc : ConfigDoc) : Option ConfigDoc :=
  some (dictUpdate (get_config fs) newc)

/-! ### Constructors -/

/-- The `ValueError` message raised by `main.FPC.__init__`. -/
def addrErrMsg : String :=
  "An instrument address must be supplied or set in the config file using set_config."

/-- `main.FPC.__init__` (default address: the empty string) over an abstract
transport opener `openRes` (`rm.open_resource`): an empty address falls back
to the persisted address config key, raising `ValueError` when the key is
absent; only on
a resolved address is the transport opened, whose failures surface as
transport errors. -/
def mainInit {α : Type} (openRes : String → Except String α)
    (fs : Option ConfigDoc) (address : String := "") : Except PyErr α :=
  if address = "" then
    match lookupA (get_config fs) "address" with
    | some a => (openRes a).mapError PyErr.transportErr
    | none => Except.error (PyErr.valueError addrErrMsg)
  else
    (openRes address).mapError PyErr.transportErr

/-- The built-in default address of `rohdeschwarzfpc.FPC.__init__`. -/
def rsDefaultAddr : String := "TCPIP0::172.16.10.10::inst0::INSTR"

/-- `rohdeschwarzfpc.FPC.__init__`, whose default address is the fixed string
`TCPIP0::172.16.10.10::inst0::INSTR`:
opens the transport at the given (or default) address unconditionally; it
never consults the config document. -/
def rsInit {α : Type} (openRes : String → Except String α)
    (address : String := rsDefaultAddr) : Except PyErr α :=
  (openRes address).mapError PyErr.transportErr

/-! ### Concrete instrument behaviours used to instantiate the theorems -/

/-- A float parser for the handful of numeric strings occurring in the
concrete scenarios below. -/
noncomputable def pfNum : String → Option ℝ := fun s =>
  if s = "0" then some 0
  else if s = "100" then some 100
  else if s = "1000" then some 1000
  else none

/-- An instrument reporting one sample of -50 dBm, span 0 to 100 Hz, rbw 1000. -/
noncomputable def trDbm : Transport :=
  ⟨fun _ => "0;100;dBm;1000", fun _ => [-50]⟩

/-- An instrument reporting one sample with the (padded, non-dBm) unit
string consisting of a space, the letter V and a space. -/
noncomputable def trUnitV : Transport :=
  ⟨fun _ => "0;100; V ;1000", fun _ => [7]⟩

/-- An instrument reporting an empty amplitude vector in dBm. -/
noncomputable def trEmpty : Transport :=
  ⟨fun _ => "0;100;dBm;1000", fun _ => []⟩

/-- An instrument whose combined scalar response has three fields only. -/
noncomputable def trShort : Transport :=
  ⟨fun _ => "1;2;3", fun _ => []⟩

/-- Query responses for the getter scenario: the start-frequency query parses,
every other query returns a non-numeric padded string. -/
def qGet : String → String := fun c =>
  if c = "FREQuency:STARt?" then "100" else " nope "

/-- A prior config document holding an address and one extra key. -/
def fsPrior : Option ConfigDoc := some [("address", "X"), ("a", "1")]

/-- New config keys overwriting one prior key and adding a fresh one. -/
def newKeys : ConfigDoc := [("a", "2"), ("b", "3")]

/-! ### Helper lemmas -/

theorem linspace_length (a b : ℝ) (n : ℕ) : (linspace a b n).length = n := by
  unfold linspace
  rw [List.length_map, List.length_range]

theorem main_get_trace_dbm (pf : String → Option ℝ) (tr : Transport) (n : ℤ)
    (mem : Bool) (f1 f2 unit rbw : String) (a b r : ℝ)
    (hsplit : pySplitSemicolon (tr.query scalarQuery) = [f1, f2, unit, rbw])
    (h1 : pf f1 = some a) (h2 : pf f2 = some b)
    (hu : pyLower unit = "dbm") (hr : pf rbw = some r) :
    main.get_trace pf tr n mem =
      Except.ok ⟨linspace a b (tr.queryBin (main.traceReq n mem)).length,
        (tr.queryBin (main.traceReq n mem)).map (fun v => 50 * 0.001 * (10 ^ (v / 10)) / r),
        "Frequency (Hz)", "$S_V$ (V$^2$/Hz)"⟩ := by
  simp only [main.get_trace]
  rw [hsplit]
  simp [h1, h2, hu, hr]

theorem main_get_trace_nondbm (pf : String → Option ℝ) (tr : Transport) (n : ℤ)
    (mem : Bool) (f1 f2 unit rbw : String) (a b : ℝ)
    (hsplit : pySplitSemicolon (tr.query scalarQuery) = [f1, f2, unit, rbw])
    (h1 : pf f1 = some a) (h2 : pf f2 = some b)
    (hu : pyLower unit ≠ "dbm") :
    main.get_trace pf tr n mem =
      Except.ok ⟨linspace a b (tr.queryBin (main.traceReq n mem)).length,
        tr.queryBin (main.traceReq n mem), "Frequency (Hz)", "$S_V$"⟩ := by
  simp only [main.get_trace]
  rw [hsplit]
  simp [h1, h2, hu]

theorem main_get_trace_unpack (pf : String → Option ℝ) (tr : Transport) (n : ℤ)
    (mem : Bool)
    (hlen : (pySplitSemicolon (tr.query scalarQuery)).length ≠ 4) :
    main.get_trace pf tr n mem =
      Except.error (PyErr.valueError "unpack mismatch") := by
  simp only [main.get_trace]
  rcases hl : pySplitSemicolon (tr.query scalarQuery) with
    _ | ⟨x1, _ | ⟨x2, _ | ⟨x3, _ | ⟨x4, _ | ⟨x5, t⟩⟩⟩⟩⟩ <;>
    first
      | rfl
      | (rw [hl] at hlen; simp at hlen)

theorem rs_get_trace_dbm (pf : String → Option ℝ) (tr : Transport) (n : ℤ)
    (f1 f2 unit rbw : String) (a b r : ℝ)
    (hsplit : pySplitSemicolon (tr.query scalarQuery) = [f1, f2, unit, rbw])
    (h1 : pf f1 = some a) (h2 : pf f2 = some b)
    (hu : pyLower unit = "dbm") (hr : pf rbw = some r) :
    rohdeschwarzfpc.get_trace pf tr n =
      Except.ok ⟨linspace a b (tr.queryBin (rohdeschwarzfpc.traceReq n)).length,
        (tr.queryBin (rohdeschwarzfpc.traceReq n)).map
          (fun v => 50 * 0.001 * (10 ^ (v / 10)) / r),
        "Frequency", "Hz", "$S_V$", "V$^2$/Hz"⟩ := by
  simp only [rohdeschwarzfpc.get_trace]
  rw [hsplit]
  simp [h1, h2, hu, hr]

theorem rs_get_trace_nondbm (pf : String → Option ℝ) (tr : Transport) (n : ℤ)
    (f1 f2 unit rbw : String) (a b : ℝ)
    (hsplit : pySplitSemicolon (tr.query scalarQuery) = [f1, f2, unit, rbw])
    (h1 : pf f1 = some a) (h2 : pf f2 = some b)
    (hu : pyLower unit ≠ "dbm") :
    rohdeschwarzfpc.get_trace pf tr n =
      Except.ok ⟨linspace a b (tr.queryBin (rohdeschwarzfpc.traceReq n)).length,
        tr.queryBin (rohdeschwarzfpc.traceReq n),
        "Frequency", "Hz", "$S_V$", unit⟩ := by
  simp only [rohdeschwarzfpc.get_trace]
  rw [hsplit]
  simp [h1, h2, hu]

theorem rs_get_trace_unpack (pf : String → Option ℝ) (tr : Transport) (n : ℤ)
    (hlen : (pySplitSemicolon (tr.query scalarQuery)).length ≠ 4) :
    rohdeschwarzfpc.get_trace pf tr n =
      Except.error (PyErr.valueError "unpack mismatch") := by
  simp only [rohdeschwarzfpc.get_trace]
  rcases hl : pySplitSemicolon (tr.query scalarQuery) with
    _ | ⟨x1, _ | ⟨x2, _ | ⟨x3, _ | ⟨x4, _ | ⟨x5, t⟩⟩⟩⟩⟩ <;>
    first
      | rfl
      | (rw [hl] at hlen; simp at hlen)

theorem rpow_neg_fifty_div_ten : (10 : ℝ) ^ ((-50 : ℝ) / 10) = 1 / 100000 := by
  have h : ((-50 : ℝ) / 10) = ((-5 : ℤ) : ℝ) := by norm_num
  rw [h, Real.rpow_intCast]
  norm_num

theorem lookupA_append (l1 l2 : ConfigDoc) (k : String) :
    lookupA (l1 ++ l2) k =
      match lookupA l1 k with
      | some v => some v
      | none => lookupA l2 k := by
  induction l1 with
  | nil => simp [lookupA]
  | cons kv rest ih =>
    by_cases h : kv.1 = k <;> simp [lookupA, h, ih]

theorem lookupA_map_upd (c newc : ConfigDoc) (k : String) :
    lookupA (c.map (fun kv =>
        match lookupA newc kv.1 with
        | some v => (kv.1, v)
        | none => kv)) k
      = (lookupA c k).map (fun w => (lookupA newc k).getD w) := by
  induction c with
  | nil => rfl
  | cons kv rest ih =>
    cases hnc : lookupA newc kv.1 with
    | none =>
      by_cases h : kv.1 = k
      · rw [h] at hnc
        simp [lookupA, h, hnc]
      · simp [lookupA, h, hnc, ih]
    | some v =>
      by_cases h : kv.1 = k
      · rw [h] at hnc
        simp [lookupA, h, hnc]
      · simp [lookupA, h, hnc, ih]

theorem lookupA_filter_avail (c newc : ConfigDoc) (k : String)
    (hc : lookupA c k = none) :
    lookupA (newc.filter (fun kv => (lookupA c kv.1).isNone)) k =
      lookupA newc k := by
  induction newc with
  | nil => rfl
  | cons kv rest ih =>
    by_cases h : kv.1 = k
    · simp [List.filter, lookupA, h, hc]
    · cases hp : (lookupA c kv.1).isNone <;>
        simp [List.filter, hp, lookupA, h, ih]

theorem lookupA_filter_none (newc : ConfigDoc) (p : String × String → Bool)
    (k : String) (h : lookupA newc k = none) :
    lookupA (newc.filter p) k = none := by
  induction newc with
  | nil => rfl
  | cons kv rest ih =>
    rw [lookupA] at h
    by_cases hk : kv.1 = k
    · simp [hk] at h
    · simp only [hk, if_false] at h
      cases hp : p kv <;> simp [List.filter, hp, lookupA, hk, ih h]

theorem lookupA_dictUpdate_of_mem (c newc : ConfigDoc) (k : String) (v : String)
    (h : lookupA newc k = some v) :
    lookupA (dictUpdate c newc) k = some v := by
  rw [dictUpdate, lookupA_append, lookupA_map_upd]
  cases hc : lookupA c k with
  | none =>
    show lookupA (newc.filter (fun kv => (lookupA c kv.1).isNone)) k = some v
    rw [lookupA_filter_avail c newc k hc]
    exact h
  | some w =>
    simp [h]

theorem lookupA_dictUpdate_of_not_mem (c newc : ConfigDoc) (k : String)
    (h : lookupA newc k = none) :
    lookupA (dictUpdate c newc) k = lookupA c k := by
  rw [dictUpdate, lookupA_append, lookupA_map_upd, h]
  cases hc : lookupA c k with
  | none =>
    show lookupA (newc.filter (fun kv => (lookupA c kv.1).isNone)) k = none
    exact lookupA_filter_none newc _ k h
  | some w =>
    simp

/-! ### Claims -/

/-- Claim C1: for every trace acquisition whose reported y-unit compares
case-insensitively equal to dbm, every amplitude sample y is converted to
`50 * 0.001 * 10 ^ (y / 10) / rbw = 0.05 * 10 ^ (y / 10) / rbw`, where `rbw`
is the resolution bandwidth parsed from the combined scalar query.  Holds in
both driver variants. -/
theorem claim_C1_dbm_conversion
    (pf : String → Option ℝ) (tr : Transport) (n : ℤ) (mem : Bool)
    (f1 f2 unit rbw : String) (a b r : ℝ)
    (hsplit : pySplitSemicolon (tr.query scalarQuery) = [f1, f2, unit, rbw])
    (h1 : pf f1 = some a) (h2 : pf f2 = some b)
    (hu : pyLower unit = "dbm") (hr : pf rbw = some r) :
    (main.get_trace pf tr n mem).map main.TraceDict.y =
      Except.ok ((tr.queryBin (main.traceReq n mem)).map
        (fun v => 0.05 * (10 : ℝ) ^ (v / 10) / r)) ∧
    (rohdeschwarzfpc.get_trace pf tr n).map rohdeschwarzfpc.TraceTuple.y =
      Except.ok ((tr.queryBin (rohdeschwarzfpc.traceReq n)).map
        (fun v => 0.05 * (10 : ℝ) ^ (v / 10) / r)) := by
  have hfun : (fun v : ℝ => 50 * 0.001 * (10 ^ (v / 10)) / r) =
      (fun v : ℝ => 0.05 * (10 : ℝ) ^ (v / 10) / r) := by
    funext v
    norm_num
  constructor
  · rw [main_get_trace_dbm pf tr n mem f1 f2 unit rbw a b r hsplit h1 h2 hu hr]
    rw [Except.map, hfun]
  · rw [rs_get_trace_dbm pf tr n f1 f2 unit rbw a b r hsplit h1 h2 hu hr]
    rw [Except.map, hfun]

/-- Witness for C1: a single sample of -50 dBm with rbw 1000 converts to
exactly 5e-10. -/
theorem claim_C1_witness :
    (main.get_trace pfNum trDbm 1 false).map main.TraceDict.y =
      Except.ok [(5e-10 : ℝ)] := by
  have h := (claim_C1_dbm_conversion pfNum trDbm 1 false "0" "100" "dBm" "1000"
    0 100 1000 (by decide) rfl rfl (by decide) rfl).1
  rw [h]
  show Except.ok (([(-50 : ℝ)]).map (fun v => 0.05 * (10 : ℝ) ^ (v / 10) / 1000)) =
    Except.ok [(5e-10 : ℝ)]
  simp only [List.map_cons, List.map_nil]
  norm_num [rpow_neg_fifty_div_ten]

/-- Claim C2: every successful trace acquisition, in either variant and for
any trace index, memory flag and reported unit, returns frequency and
amplitude axes of equal length. -/
theorem claim_C2_axes_length :
    (∀ (pf : String → Option ℝ) (tr : Transport) (n : ℤ) (mem : Bool)
      (res : main.TraceDict), main.get_trace pf tr n mem = Except.ok res →
      res.x.length = res.y.length) ∧
    (∀ (pf : String → Option ℝ) (tr : Transport) (n : ℤ)
      (res : rohdeschwarzfpc.TraceTuple),
      rohdeschwarzfpc.get_trace pf tr n = Except.ok res →
      res.x.length = res.y.length) := by
  constructor
  · intro pf tr n mem res h
    simp only [main.get_trace] at h
    repeat split at h
    all_goals first
      | exact Except.noConfusion h
      | (injection h with h'; subst h'; simp [linspace_length])
  · intro pf tr n res h
    simp only [rohdeschwarzfpc.get_trace] at h
    repeat split at h
    all_goals first
      | exact Except.noConfusion h
      | (injection h with h'; subst h'; simp [linspace_length])

/-- A concrete successful acquisition used to instantiate C2. -/
noncomputable def resC2 : main.TraceDict :=
  ⟨linspace 0 100 1, [7], "Frequency (Hz)", "$S_V$"⟩

/-- Witness for C2: a concrete one-sample acquisition succeeds and its axes
have equal length. -/
theorem claim_C2_witness :
    main.get_trace pfNum trUnitV 1 false = Except.ok resC2 ∧
    resC2.x.length = resC2.y.length := by
  have hok : main.get_trace pfNum trUnitV 1 false = Except.ok resC2 :=
    main_get_trace_nondbm pfNum trUnitV 1 false "0" "100" " V " "1000" 0 100
      (by decide) rfl rfl (by decide)
  exact ⟨hok, claim_C2_axes_length.1 pfNum trUnitV 1 false resC2 hok⟩

/-- Claim C3: when the reported y-unit is not dbm (case-insensitively), both
variants return the amplitude vector unchanged; the tuple variant records the
reported unit string verbatim (untrimmed) as the `unit_y` metadata, while the
dict variant leaves its y label at the fixed string and records no unit. -/
theorem claim_C3_passthrough_verbatim
    (pf : String → Option ℝ) (tr : Transport) (n : ℤ) (mem : Bool)
    (f1 f2 unit rbw : String) (a b : ℝ)
    (hsplit : pySplitSemicolon (tr.query scalarQuery) = [f1, f2, unit, rbw])
    (h1 : pf f1 = some a) (h2 : pf f2 = some b)
    (hu : pyLower unit ≠ "dbm") :
    (main.get_trace pf tr n mem).map (fun t => (t.y, t.ylabel)) =
      Except.ok (tr.queryBin (main.traceReq n mem), "$S_V$") ∧
    (rohdeschwarzfpc.get_trace pf tr n).map (fun t => (t.y, t.unit_y)) =
      Except.ok (tr.queryBin (rohdeschwarzfpc.traceReq n), unit) := by
  constructor
  · rw [main_get_trace_nondbm pf tr n mem f1 f2 unit rbw a b hsplit h1 h2 hu]
    rfl
  · rw [rs_get_trace_nondbm pf tr n f1 f2 unit rbw a b hsplit h1 h2 hu]
    rfl

/-- Witness for C3: with the padded reported unit string (space, V, space),
the tuple variant returns the sample unchanged and records that string
verbatim, spaces included. -/
theorem claim_C3_witness :
    (rohdeschwarzfpc.get_trace pfNum trUnitV 1).map (fun t => (t.y, t.unit_y)) =
      Except.ok ([(7 : ℝ)], " V ") ∧
    (main.get_trace pfNum trUnitV 1 false).map (fun t => (t.y, t.ylabel)) =
      Except.ok ([(7 : ℝ)], "$S_V$") := by
  have h := claim_C3_passthrough_verbatim pfNum trUnitV 1 false "0" "100" " V "
    "1000" 0 100 (by decide) rfl rfl (by decide)
  exact ⟨h.2, h.1⟩

/-- Claim C4: constructing the dict-variant driver with an empty (defaulted)
address when the config document holds no address key fails with the
configuration `ValueError`, for every possible transport opener - in
particular the opener is never consulted and no transport error can
surface. -/
theorem claim_C4_config_error {α : Type} (openRes : String → Except String α)
    (fs : Option ConfigDoc)
    (h : lookupA (get_config fs) "address" = none) :
    mainInit openRes fs "" = Except.error (PyErr.valueError addrErrMsg) := by
  simp [mainInit, h]

/-- Witness for C4: with a missing config file and an opener that would fail,
construction still reports the configuration error, not a transport error. -/
theorem claim_C4_witness :
    mainInit (fun _ => (Except.error "connection refused" : Except String Unit))
      none = Except.error (PyErr.valueError addrErrMsg) :=
  claim_C4_config_error
    (fun _ => (Except.error "connection refused" : Except String Unit)) none rfl

/-- Claim C5: each of the six scalar parameter getters is total on every
transport response: when the response parses as a float the parsed number is
returned, otherwise the raw response trimmed of leading and trailing
whitespace is returned - no numeric-parse error escapes. -/
theorem claim_C5_getters_never_raise (pf : String → Option ℝ)
    (q : String → String) :
    (∀ v, pf (q "FREQuency:STARt?") = some v →
      get_start_freq pf q = GetResult.num v) ∧
    (pf (q "FREQuency:STARt?") = none →
      get_start_freq pf q = GetResult.raw (pyStrip (q "FREQuency:STARt?"))) ∧
    (∀ v, pf (q "FREQuency:STOP?") = some v →
      get_stop_freq pf q = GetResult.num v) ∧
    (pf (q "FREQuency:STOP?") = none →
      get_stop_freq pf q = GetResult.raw (pyStrip (q "FREQuency:STOP?"))) ∧
    (∀ v, pf (q "FREQuency:CENTer?") = some v →
      get_cent_freq pf q = GetResult.num v) ∧
    (pf (q "FREQuency:CENTer?") = none →
      get_cent_freq pf q = GetResult.raw (pyStrip (q "FREQuency:CENTer?"))) ∧
    (∀ v, pf (q "FREQuency:SPAN?") = some v →
      get_span pf q = GetResult.num v) ∧
    (pf (q "FREQuency:SPAN?") = none →
      get_span pf q = GetResult.raw (pyStrip (q "FREQuency:SPAN?"))) ∧
    (∀ v, pf (q "BWIDth:RESolution?") = some v →
      get_rbw pf q = GetResult.num v) ∧
    (pf (q "BWIDth:RESolution?") = none →
      get_rbw pf q = GetResult.raw (pyStrip (q "BWIDth:RESolution?"))) ∧
    (∀ v, pf (q "BANDwidth:VIDeo?") = some v →
      get_vbw pf q = GetResult.num v) ∧
    (pf (q "BANDwidth:VIDeo?") = none →
      get_vbw pf q = GetResult.raw (pyStrip (q "BANDwidth:VIDeo?"))) := by
  refine ⟨fun v h => ?_, fun h => ?_, fun v h => ?_, fun h => ?_,
    fun v h => ?_, fun h => ?_, fun v h => ?_, fun h => ?_,
    fun v h => ?_, fun h => ?_, fun v h => ?_, fun h => ?_⟩ <;>
  simp [get_start_freq, get_stop_freq, get_cent_freq, get_span, get_rbw,
    get_vbw, h]

/-- Witness for C5: a parsing response yields the number, a non-parsing
padded response yields the trimmed raw string. -/
theorem claim_C5_witness :
    get_start_freq pfNum qGet = GetResult.num 100 ∧
    get_stop_freq pfNum qGet = GetResult.raw "nope" := by
  have h := claim_C5_getters_never_raise pfNum qGet
  refine ⟨h.1 100 rfl, ?_⟩
  have h2 := h.2.2.2.1 rfl
  rw [h2]
  congr 1

/-- Claim C6: writing a new mapping and reading back yields the shallow
merge: every key of the new mapping carries its new value, every other key
of the prior document keeps its prior value. -/
theorem claim_C6_merge (fs : Option ConfigDoc) (newc : ConfigDoc) :
    (∀ k v, lookupA newc k = some v →
      lookupA (get_config (set_config fs newc)) k = some v) ∧
    (∀ k, lookupA newc k = none →
      lookupA (get_config (set_config fs newc)) k = lookupA (get_config fs) k) := by
  have hgc : get_config (set_config fs newc) = dictUpdate (get_config fs) newc := rfl
  constructor
  · intro k v h
    rw [hgc]
    exact lookupA_dictUpdate_of_mem (get_config fs) newc k v h
  · intro k h
    rw [hgc]
    exact lookupA_dictUpdate_of_not_mem (get_config fs) newc k h

/-- Witness for C6: overwriting one key, adding another, and keeping an
untouched prior key. -/
theorem claim_C6_witness :
    lookupA (get_config (set_config fsPrior newKeys)) "a" = some "2" ∧
    lookupA (get_config (set_config fsPrior newKeys)) "b" = some "3" ∧
    lookupA (get_config (set_config fsPrior newKeys)) "address" = some "X" := by
  refine ⟨(claim_C6_merge fsPrior newKeys).1 "a" "2" (by decide),
    (claim_C6_merge fsPrior newKeys).1 "b" "3" (by decide), ?_⟩
  have h := (claim_C6_merge fsPrior newKeys).2 "address" (by decide)
  rw [h]
  decide

/-- Claim C7: reading the config when the file does not exist returns the
empty mapping without an error, even though the underlying file open raises
FileNotFoundError. -/
theorem claim_C7_missing_config :
    get_config none = ([] : ConfigDoc) ∧
    readConfigFile none = Except.error PyErr.fileNotFound :=
  ⟨rfl, rfl⟩

/-- Claim C8: a zero-length amplitude vector (with the combined scalar query
parsing normally) yields a successful result with zero-length frequency and
amplitude axes, in both variants, whatever the reported unit. -/
theorem claim_C8_empty_trace
    (pf : String → Option ℝ) (tr : Transport) (n : ℤ) (mem : Bool)
    (f1 f2 unit rbw : String) (a b r : ℝ)
    (hsplit : pySplitSemicolon (tr.query scalarQuery) = [f1, f2, unit, rbw])
    (h1 : pf f1 = some a) (h2 : pf f2 = some b) (hr : pf rbw = some r)
    (hyD : tr.queryBin (main.traceReq n mem) = [])
    (hyT : tr.queryBin (rohdeschwarzfpc.traceReq n) = []) :
    (main.get_trace pf tr n mem).map (fun t => (t.x, t.y)) =
      Except.ok (([] : List ℝ), ([] : List ℝ)) ∧
    (rohdeschwarzfpc.get_trace pf tr n).map (fun t => (t.x, t.y)) =
      Except.ok (([] : List ℝ), ([] : List ℝ)) := by
  constructor
  · by_cases hu : pyLower unit = "dbm"
    · rw [main_get_trace_dbm pf tr n mem f1 f2 unit rbw a b r hsplit h1 h2 hu hr]
      simp [hyD, linspace, Except.map]
    · rw [main_get_trace_nondbm pf tr n mem f1 f2 unit rbw a b hsplit h1 h2 hu]
      simp [hyD, linspace, Except.map]
  · by_cases hu : pyLower unit = "dbm"
    · rw [rs_get_trace_dbm pf tr n f1 f2 unit rbw a b r hsplit h1 h2 hu hr]
      simp [hyT, linspace, Except.map]
    · rw [rs_get_trace_nondbm pf tr n f1 f2 unit rbw a b hsplit h1 h2 hu]
      simp [hyT, linspace, Except.map]

/-- Witness for C8: an instrument returning no samples in dBm yields empty
axes without error. -/
theorem claim_C8_witness :
    (main.get_trace pfNum trEmpty 1 false).map (fun t => (t.x, t.y)) =
      Except.ok (([] : List ℝ), ([] : List ℝ)) ∧
    (rohdeschwarzfpc.get_trace pfNum trEmpty 1).map (fun t => (t.x, t.y)) =
      Except.ok (([] : List ℝ), ([] : List ℝ)) :=
  claim_C8_empty_trace pfNum trEmpty 1 false "0" "100" "dBm" "1000" 0 100 1000
    (by decide) rfl rfl rfl rfl rfl

/-- Claim C9: when the combined scalar response does not split into exactly
four semicolon-separated fields, both variants fail with the unpack
ValueError and return no trace result. -/
theorem claim_C9_unpack
    (pf : String → Option ℝ) (tr : Transport) (n : ℤ) (mem : Bool)
    (hlen : (pySplitSemicolon (tr.query scalarQuery)).length ≠ 4) :
    main.get_trace pf tr n mem =
      Except.error (PyErr.valueError "unpack mismatch") ∧
    rohdeschwarzfpc.get_trace pf tr n =
      Except.error (PyErr.valueError "unpack mismatch") :=
  ⟨main_get_trace_unpack pf tr n mem hlen, rs_get_trace_unpack pf tr n hlen⟩

/-- Witness for C9: a three-field scalar response makes both variants fail. -/
theorem claim_C9_witness :
    main.get_trace pfNum trShort 1 false =
      Except.error (PyErr.valueError "unpack mismatch") ∧
    rohdeschwarzfpc.get_trace pfNum trShort 1 =
      Except.error (PyErr.valueError "unpack mismatch") :=
  claim_C9_unpack pfNum trShort 1 false (by decide)

/-- Claim C10: the tuple-variant constructor with the address omitted always
opens the fixed built-in default address and never consults the config: its
result is exactly the opener applied to that address, and any failure it
reports is a transport error. -/
theorem claim_C10_default_address {α : Type}
    (openRes : String → Except String α) :
    rsInit openRes = Except.mapError PyErr.transportErr (openRes rsDefaultAddr) ∧
    ∀ e, rsInit openRes = Except.error e → ∃ m, e = PyErr.transportErr m := by
  refine ⟨rfl, fun e he => ?_⟩
  unfold rsInit at he
  cases ho : openRes rsDefaultAddr <;> rw [ho] at he <;>
    simp [Except.mapError] at he
  exact ⟨_, he.symm⟩

/-- Witness for C10: an opener that refuses the connection surfaces as a
transport error at the default address. -/
theorem claim_C10_witness :
    rsInit (fun _ => (Except.error "connection refused" : Except String Unit)) =
      Except.error (PyErr.transportErr "connection refused") ∧
    ∃ m, PyErr.transportErr "connection refused" = PyErr.transportErr m := by
  refine ⟨rfl, ?_⟩
  exact (claim_C10_default_address
    (fun _ => (Except.error "connection refused" : Except String Unit))).2
    (PyErr.transportErr "connection refused") rfl

end RSFPC
